import Mathlib

/- Shallow embedding of the wiserheatingapi repository:
   src/wiserHeatingAPI/wiserHub.py and src/wiserHeatingAPI/request_mod.py.

   Hub-unit temperatures are tenths-of-a-degree integers; degree values are
   modelled as rationals.  Python exceptions are an explicit error type and
   fallible code returns Except.  The hub itself is modelled by an
   environment giving the JSON documents its GET endpoints return and the
   status/text of successive PATCH responses.  checkHubData, refreshData and
   getRooms are mutually recursive in the source with no bound, so the
   recursion knot carries a fuel argument whose exhaustion stands for
   Python's RecursionError (the interpreter's recursion limit). -/

/-- Python exceptions raised by the modelled code, mirroring the exception
classes in wiserHub.py plus the built-in exceptions the code can hit. -/
inductive PyExc where
  | wiserNotFound (msg : String)
  | wiserNoRoomsFound (msg : String)
  | wiserREST (msg : String)
  | wiserHubDataNull (msg : String)
  | wiserHubAuthentication (msg : String)
  | wiserHubRequest (msg : String)
  | wiserHubTimeout
  | requestsHTTPError (status : Nat) (text : String)
  | requestsTimeout
  | requestsConnectionError
  | valueError (msg : String)
  | typeError
  | attributeError
  | keyError (key : String)
  | unboundLocalError (name : String)
  | recursionError
deriving DecidableEq

/-- A requests.Response as far as the code reads it. -/
structure HttpResponse where
  status_code : Nat
  text : String
deriving DecidableEq

/-- One HTTP exchange as seen at the CustomSession boundary: the underlying
transport either times out, fails to connect, or delivers a response. -/
inductive HttpOutcome where
  | timeout
  | connError
  | resp (status : Nat) (text : String)
deriving DecidableEq

/-- requests.Response.raise_for_status: raises requests.HTTPError exactly for
status codes 400-599. -/
def raiseForStatus (r : HttpResponse) : Except PyExc Unit :=
  if 400 ≤ r.status_code ∧ r.status_code < 600 then
    .error (.requestsHTTPError r.status_code r.text)
  else
    .ok ()

/-- CustomSession.get / CustomSession.patch (request_mod.py): resolve against
the base URL and send; the session's response hook calls raise_for_status, so
any 4xx/5xx response surfaces as requests.HTTPError raised out of the call
itself, before the caller can bind the response. -/
def sessionSend (o : HttpOutcome) : Except PyExc HttpResponse :=
  match o with
  | .timeout => .error .requestsTimeout
  | .connError => .error .requestsConnectionError
  | .resp status text =>
    match raiseForStatus ⟨status, text⟩ with
    | .error e => .error e
    | .ok _ => .ok ⟨status, text⟩

/-- wiserHub._makeGetRequest.  In the source, `resp = self._http.get(url=url)`
is wrapped in try/except.  When the response hook raises requests.HTTPError,
the assignment to the local `resp` never happened, so the handler's
`resp.status_code` raises UnboundLocalError before any of the status
comparisons (401 to WiserHubAuthenticationException, 404 to
WiserHubRequestException, otherwise WiserRESTException) can run.  The
Timeout/ConnectionError handler does not touch `resp` and raises
WiserHubTimeoutException as written (its message formatting is abstracted). -/
def makeGetRequest (o : HttpOutcome) : Except PyExc HttpResponse :=
  match sessionSend o with
  | .ok resp => .ok resp
  | .error (.requestsHTTPError _ _) => .error (.unboundLocalError "resp")
  | .error .requestsTimeout => .error .wiserHubTimeout
  | .error .requestsConnectionError => .error .wiserHubTimeout
  | .error e => .error e

/-- wiserHub._makePatchRequest: same structure as _makeGetRequest, and the
handler dies on the unbound local `resp` the same way (its
`resp.status_code == 404 or 405` comparison, itself always truthy because of
operator precedence, is never reached). -/
def makePatchRequest (o : HttpOutcome) : Except PyExc HttpResponse :=
  match sessionSend o with
  | .ok resp => .ok resp
  | .error (.requestsHTTPError _ _) => .error (.unboundLocalError "resp")
  | .error .requestsTimeout => .error .wiserHubTimeout
  | .error .requestsConnectionError => .error .wiserHubTimeout
  | .error e => .error e

def TEMP_MINIMUM : ℚ := 5

def TEMP_MAXIMUM : ℚ := 30

def TEMP_OFF : ℚ := -20

/-- Python int() applied to a number: truncation toward zero. -/
def pyInt (q : ℚ) : ℤ := if 0 ≤ q then ⌊q⌋ else ⌈q⌉

/-- Python round() to an integer: nearest integer, ties to even. -/
def pyRoundHalfEven (q : ℚ) : ℤ :=
  if q - ⌊q⌋ < 1 / 2 then ⌊q⌋
  else if 1 / 2 < q - ⌊q⌋ then ⌊q⌋ + 1
  else if Even ⌊q⌋ then ⌊q⌋ else ⌊q⌋ + 1

/-- Python round(x, 1): round to one decimal place. -/
def pyRound1 (q : ℚ) : ℚ := (pyRoundHalfEven (q * 10) : ℚ) / 10

/-- wiserHub._toWiserTemp: temp = int(temp * 10). -/
def toWiserTemp (temp : ℚ) : ℤ := pyInt (temp * 10)

/-- wiserHub._fromWiserTemp: temp = round(temp / 10, 1). -/
def fromWiserTemp (temp : ℤ) : ℚ := pyRound1 ((temp : ℚ) / 10)

/-- wiserHub._checkTempRange. -/
def checkTempRange (temp : ℚ) : Bool :=
  if temp ≠ TEMP_OFF ∧ (temp < TEMP_MINIMUM ∨ temp > TEMP_MAXIMUM) then false else true

/-- Python str.lower (the identifiers involved are ASCII). -/
def pyLower (s : String) : String := ⟨s.data.map Char.toLower⟩

/-- Python str() of an optional string field (str(None) is the text None). -/
def pyStr : Option String → String
  | none => "None"
  | some v => v

/-- A scalar JSON value inside a nested PATCH object. -/
inductive PLeaf where
  | s (v : String)
  | n (v : ℤ)
deriving DecidableEq

/-- A JSON value in a PATCH body: scalar or one nested object of scalars,
which covers every patch body the source builds. -/
inductive PVal where
  | s (v : String)
  | n (v : ℤ)
  | o (fields : List (String × PLeaf))
deriving DecidableEq

/-- A JSON object sent as a PATCH body (a Python dict literal, in the
source's key order). -/
abbrev PatchBody := List (String × PVal)

/-- Device identifiers are opaque dictionary keys in the source. -/
abbrev DeviceId := String

/-- A value of wiserHub.device2roomMap: the dict built from room.get("id")
and room.get("Name"), either of which can be absent. -/
structure DeviceRoomEntry where
  roomId : Option ℤ
  roomName : Option String
deriving DecidableEq

/-- A room object of the domain document, restricted to the keys the
modelled operations read; each is accessed with .get and so optional. -/
structure Room where
  id : Option ℤ
  Name : Option String
  RoomStatId : Option DeviceId
  SmartValveIds : Option (List DeviceId)
  ScheduledSetPoint : Option ℤ
deriving DecidableEq

/-- A heating channel object, restricted to the key the code reads. -/
structure HeatingChannel where
  HeatingRelayState : Option String
deriving DecidableEq

/-- A smart plug object, restricted to the keys getSmartPlugState reads. -/
structure SmartPlug where
  id : Option ℤ
  OutputState : Option String
  ScheduledState : Option String
deriving DecidableEq

/-- Document returned by GET schedules/ .  The code only reads its Heating
member and moves it wholesale, so schedule entries are opaque tokens here. -/
structure ScheduleData where
  Heating : List ℤ
deriving DecidableEq

/-- Document returned by GET network/ ; opaque to the modelled operations. -/
structure NetworkData where
  station : List ℤ
deriving DecidableEq

/-- The domain document (wiserHubData), restricted to the keys the modelled
operations read; Schedule is the slot refreshData overwrites. -/
structure DomainData where
  Room : Option (List Room)
  HeatingChannel : Option (List HeatingChannel)
  SmartPlug : Option (List SmartPlug)
  Schedule : Option (List ℤ)
deriving DecidableEq

/-- The mutable attributes of a wiserHub instance. -/
structure HubState where
  wiserHubData : Option DomainData
  wiserNetworkData : Option NetworkData
  wiserScheduleData : Option ScheduleData
  device2roomMap : List (DeviceId × DeviceRoomEntry)
deriving DecidableEq

/-- Observable effects of a run: GET urls, PATCH requests and warning-level
log lines, each in order of occurrence. -/
structure Trace where
  gets : List String
  patches : List (String × PatchBody)
  warnings : List String
deriving DecidableEq

def Trace.empty : Trace := ⟨[], [], []⟩

/-- The hub as seen by one run: the documents its GET endpoints return (none
models a JSON null body) and the status/text it answers to the i-th PATCH of
the run.  GET transport failures are analysed separately via HttpOutcome. -/
structure Env where
  domainDoc : Option DomainData
  networkDoc : Option NetworkData
  scheduleDoc : Option ScheduleData
  patchStatus : Nat → Nat
  patchText : Nat → String

/-- Result of a stateful operation: Python return value or exception, the
updated instance state, and the accumulated trace. -/
abbrev StepRes (α : Type) := Except PyExc α × HubState × Trace

/-- Python dict assignment d[k] = v: replace in place if the key exists
(keeping its position), else append. -/
def dictInsert : List (DeviceId × DeviceRoomEntry) → DeviceId → DeviceRoomEntry →
    List (DeviceId × DeviceRoomEntry)
  | [], k, v => [(k, v)]
  | (k', v') :: rest, k, v =>
    if k' = k then (k, v) :: rest else (k', v') :: dictInsert rest k v

/-- self._http.patch on the CustomSession: record the request; the hub
answers the i-th PATCH of the run with patchStatus i / patchText i, and the
session's response hook raises requests.HTTPError on 4xx/5xx. -/
def httpPatch (env : Env) (s : HubState) (t : Trace) (url : String) (body : PatchBody) :
    StepRes HttpResponse :=
  let i := t.patches.length
  let status := env.patchStatus i
  let text := env.patchText i
  let t1 := { t with patches := t.patches ++ [(url, body)] }
  match raiseForStatus ⟨status, text⟩ with
  | .error e => (.error e, s, t1)
  | .ok _ => (.ok ⟨status, text⟩, s, t1)

/-- wiserHub.updateScheduleData: wiserScheduleData = GET schedules/ parsed. -/
def updateScheduleData (env : Env) (s : HubState) (t : Trace) :
    StepRes (Option ScheduleData) :=
  (.ok env.scheduleDoc,
   { s with wiserScheduleData := env.scheduleDoc },
   { t with gets := t.gets ++ ["schedules/"] })

/-- wiserHub.updateNetworkData: wiserNetworkData = GET network/ parsed (the
non-ASCII strip before parsing has no observable effect at this level). -/
def updateNetworkData (env : Env) (s : HubState) (t : Trace) :
    StepRes (Option NetworkData) :=
  (.ok env.networkDoc,
   { s with wiserNetworkData := env.networkDoc },
   { t with gets := t.gets ++ ["network/"] })

/-- wiserHub.updateHubData: wiserHubData = GET domain/ parsed. -/
def updateHubData (env : Env) (s : HubState) (t : Trace) :
    StepRes (Option DomainData) :=
  (.ok env.domainDoc,
   { s with wiserHubData := env.domainDoc },
   { t with gets := t.gets ++ ["domain/"] })

/-- wiserHub.getRooms, parameterised by the guard it calls first: run
checkHubData, then return self.wiserHubData.get("Room"). -/
def getRoomsGo (check : HubState → Trace → StepRes Unit) (s : HubState) (t : Trace) :
    StepRes (Option (List Room)) :=
  match check s t with
  | (.error e, s', t') => (.error e, s', t')
  | (.ok _, s', t') =>
    match s'.wiserHubData with
    | none => (.error .attributeError, s', t')
    | some d => (.ok d.Room, s', t')

/-- The warning refreshData logs for a room with no devices. -/
def noDeviceWarning (name : Option String) : String :=
  "Room " ++ pyStr name ++ " doesn't contain any smart valves or thermostats."

/-- The per-room loop of wiserHub.refreshData: record the room-stat id if
present, record every smart-valve id if present, warn if the room has
neither.  The device2roomMap dict is updated in place, never cleared. -/
def roomMapFold : List Room → List (DeviceId × DeviceRoomEntry) → List String →
    List (DeviceId × DeviceRoomEntry) × List String
  | [], m, w => (m, w)
  | room :: rest, m, w =>
    let entry : DeviceRoomEntry := ⟨room.id, room.Name⟩
    let m1 := match room.RoomStatId with
      | some rid => dictInsert m rid entry
      | none => m
    let m2 := match room.SmartValveIds with
      | some valves => valves.foldl (fun acc v => dictInsert acc v entry) m1
      | none => m1
    let w2 := match room.RoomStatId, room.SmartValveIds with
      | none, none => w ++ [noDeviceWarning room.Name]
      | _, _ => w
    roomMapFold rest m2 w2

/-- wiserHub.refreshData lines 253-257: tempData = self.wiserHubData, then
tempData with key Schedule set to self.wiserScheduleData with key Heating.
tempData aliases the cached domain document, so the cache itself is updated;
subscripting None raises TypeError. -/
def mergeSchedule (s : HubState) (t : Trace) : StepRes DomainData :=
  match s.wiserScheduleData with
  | none => (.error .typeError, s, t)
  | some sch =>
    match s.wiserHubData with
    | none => (.error .typeError, s, t)
    | some d =>
      let d' := { d with Schedule := some sch.Heating }
      (.ok d', { s with wiserHubData := some d' }, t)

/-- wiserHub.refreshData, parameterised by the cache guard used by the two
self.getRooms() calls it makes (refreshData and checkHubData are mutually
recursive through getRooms; the knot is tied in checkHubData below):
fetch schedule data if not cached, fetch network data if not cached,
unconditionally re-fetch domain data, update the device2roomMap from the
rooms list (warning when a room has no devices, or when there are no rooms),
then merge schedule.Heating into the domain document's Schedule slot. -/
def refreshDataGo (check : HubState → Trace → StepRes Unit) (env : Env)
    (s : HubState) (t : Trace) : StepRes DomainData :=
  let st1 : HubState × Trace :=
    match s.wiserScheduleData with
    | none => (updateScheduleData env s t).2
    | some _ => (s, t)
  let st2 : HubState × Trace :=
    match st1.1.wiserNetworkData with
    | none => (updateNetworkData env st1.1 st1.2).2
    | some _ => st1
  let st3 : HubState × Trace := (updateHubData env st2.1 st2.2).2
  match getRoomsGo check st3.1 st3.2 with
  | (.error e, s', t') => (.error e, s', t')
  | (.ok rooms?, s', t') =>
    match rooms? with
    | some _ =>
      (match getRoomsGo check s' t' with
       | (.error e, s'', t'') => (.error e, s'', t'')
       | (.ok none, s'', t'') => (.error .typeError, s'', t'')
       | (.ok (some rooms), s'', t'') =>
         let mw := roomMapFold rooms s''.device2roomMap t''.warnings
         mergeSchedule { s'' with device2roomMap := mw.1 }
           { t'' with warnings := mw.2 })
    | none =>
      mergeSchedule s' { t' with warnings := t'.warnings ++ ["Wiser found no rooms"] }

/-- wiserHub.checkHubData: if wiserHubData is None, call refreshData; if it
is still None afterwards, raise WiserHubDataNull.  Each nested re-entry into
the guard (checkHubData, refreshData and getRooms are mutually recursive)
burns one unit of fuel; running out models Python's RecursionError. -/
def checkHubData : Nat → Env → HubState → Trace → StepRes Unit
  | 0, _, s, t => (.error .recursionError, s, t)
  | n + 1, env, s, t =>
    match s.wiserHubData with
    | some _ => (.ok (), s, t)
    | none =>
      match refreshDataGo (fun s' t' => checkHubData n env s' t') env s t with
      | (.error e, s', t') => (.error e, s', t')
      | (.ok _, s', t') =>
        match s'.wiserHubData with
        | none =>
          (.error (.wiserHubDataNull "Hub data null even after refresh, aborting request"),
           s', t')
        | some _ => (.ok (), s', t')

/-- wiserHub.refreshData as called from outside the guard. -/
def refreshData (fuel : Nat) (env : Env) (s : HubState) (t : Trace) :
    StepRes DomainData :=
  refreshDataGo (fun s' t' => checkHubData fuel env s' t') env s t

/-- wiserHub.getRooms as called from outside the guard. -/
def getRooms (fuel : Nat) (env : Env) (s : HubState) (t : Trace) :
    StepRes (Option (List Room)) :=
  getRoomsGo (fun s' t' => checkHubData fuel env s' t') s t

/-- The linear scan in wiserHub.getRoom: first room whose id equals roomId,
else WiserNotFound naming the id. -/
def roomScan (roomId : ℤ) : List Room → Except PyExc Room
  | [] => .error (.wiserNotFound ("Room " ++ toString roomId ++ " not found"))
  | r :: rest => if r.id = some roomId then .ok r else roomScan roomId rest

/-- wiserHub.getRoom. -/
def getRoom (fuel : Nat) (env : Env) (s : HubState) (t : Trace) (roomId : ℤ) :
    StepRes Room :=
  match checkHubData fuel env s t with
  | (.error e, s', t') => (.error e, s', t')
  | (.ok _, s', t') =>
    match s'.wiserHubData with
    | none => (.error .attributeError, s', t')
    | some d =>
      match d.Room with
      | none =>
        (.error (.wiserNoRoomsFound "No rooms found in Wiser payload"),
         s', { t' with warnings := t'.warnings ++ ["getRoom called but no rooms found"] })
      | some rooms => (roomScan roomId rooms, s', t')

/-- wiserHub.getHeatingChannels: guard, then wiserHubData.get("HeatingChannel"). -/
def getHeatingChannels (fuel : Nat) (env : Env) (s : HubState) (t : Trace) :
    StepRes (Option (List HeatingChannel)) :=
  match checkHubData fuel env s t with
  | (.error e, s', t') => (.error e, s', t')
  | (.ok _, s', t') =>
    match s'.wiserHubData with
    | none => (.error .attributeError, s', t')
    | some d => (.ok d.HeatingChannel, s', t')

/-- The aggregation loop of wiserHub.getHeatingRelayStatus: start from Off,
switch to On when any channel reports On. -/
def relayFold (channels : List HeatingChannel) : String :=
  channels.foldl (fun st ch => if ch.HeatingRelayState = some "On" then "On" else st) "Off"

/-- wiserHub.getHeatingRelayStatus.  The guard call at the top of the method
is commented out in the source, but the getHeatingChannels call it makes
runs checkHubData itself; iterating a missing channel list raises TypeError. -/
def getHeatingRelayStatus (fuel : Nat) (env : Env) (s : HubState) (t : Trace) :
    StepRes String :=
  match getHeatingChannels fuel env s t with
  | (.error e, s', t') => (.error e, s', t')
  | (.ok none, s', t') => (.error .typeError, s', t')
  | (.ok (some channels), s', t') => (.ok (relayFold channels), s', t')

/-- wiserHub.getHubData: guard, then return the cached domain document. -/
def getHubData (fuel : Nat) (env : Env) (s : HubState) (t : Trace) :
    StepRes (Option DomainData) :=
  match checkHubData fuel env s t with
  | (.error e, s', t') => (.error e, s', t')
  | (.ok _, s', t') => (.ok s'.wiserHubData, s', t')

/-- The loop of wiserHub.getSmartPlugState: on the first plug whose id
matches, raise WiserNotFound when its OutputState is None, otherwise return
its ScheduledState; falling off the list raises WiserNotFound. -/
def plugStateScan (smartPlugId : ℤ) : List SmartPlug → Except PyExc (Option String)
  | [] => .error (.wiserNotFound ("Unable to find smartPlug " ++ toString smartPlugId))
  | p :: rest =>
    if p.id = some smartPlugId then
      match p.OutputState with
      | none =>
        .error (.wiserNotFound
          ("Unable to get State of smartPlug " ++ toString smartPlugId ++ ", is it offline?"))
      | some _ => .ok p.ScheduledState
    else plugStateScan smartPlugId rest

/-- wiserHub.getSmartPlugState: guard, then two getHubData calls around the
SmartPlug list, then the scan. -/
def getSmartPlugState (fuel : Nat) (env : Env) (s : HubState) (t : Trace)
    (smartPlugId : ℤ) : StepRes (Option String) :=
  match checkHubData fuel env s t with
  | (.error e, s', t') => (.error e, s', t')
  | (.ok _, s1, t1) =>
    match getHubData fuel env s1 t1 with
    | (.error e, s2, t2) => (.error e, s2, t2)
    | (.ok hub?, s2, t2) =>
      match hub? with
      | none => (.error .attributeError, s2, t2)
      | some d =>
        match d.SmartPlug with
        | none =>
          (.error (.wiserNotFound ("Unable to find smartPlug " ++ toString smartPlugId)),
           s2, t2)
        | some _ =>
          match getHubData fuel env s2 t2 with
          | (.error e, s3, t3) => (.error e, s3, t3)
          | (.ok hub2?, s3, t3) =>
            match hub2? with
            | none => (.error .attributeError, s3, t3)
            | some d2 =>
              match d2.SmartPlug with
              | none => (.error .typeError, s3, t3)
              | some plugs => (plugStateScan smartPlugId plugs, s3, t3)

/-- wiserHub.getDeviceRoom: guard; refresh when device2roomMap is empty;
then a plain dict subscript, which raises KeyError when the id is absent
(despite the source comment claiming it would return None). -/
def getDeviceRoom (fuel : Nat) (env : Env) (s : HubState) (t : Trace)
    (deviceId : DeviceId) : StepRes DeviceRoomEntry :=
  match checkHubData fuel env s t with
  | (.error e, s', t') => (.error e, s', t')
  | (.ok _, s1, t1) =>
    let step : StepRes Unit :=
      match s1.device2roomMap with
      | [] =>
        (match refreshData fuel env s1 t1 with
         | (.error e, s2, t2) => (.error e, s2, t2)
         | (.ok _, s2, t2) => (.ok (), s2, t2))
      | _ :: _ => (.ok (), s1, t1)
    match step with
    | (.error e, s2, t2) => (.error e, s2, t2)
    | (.ok _, s2, t2) =>
      match s2.device2roomMap.lookup deviceId with
      | some entry => (.ok entry, s2, t2)
      | none => (.error (.keyError deviceId), s2, t2)

def autoPatchBody : PatchBody := [("Mode", .s "Auto")]

def boostPatchBody (durationMinutes setPoint : ℤ) : PatchBody :=
  [("RequestOverride",
    .o [("Type", .s "Manual"), ("DurationMinutes", .n durationMinutes),
        ("SetPoint", .n setPoint), ("Originator", .s "App")])]

def manualPatchBody (setPoint : ℤ) : PatchBody :=
  [("Mode", .s "Manual"),
   ("RequestOverride", .o [("Type", .s "Manual"), ("SetPoint", .n setPoint)])]

def cancelBoostPostData : PatchBody :=
  [("RequestOverride",
    .o [("Type", .s "None"), ("DurationMinutes", .n 0), ("SetPoint", .n 0),
        ("Originator", .s "App")])]

/-- wiserHub.setRoomMode lines 761-798, the tail run after patchData is
built: unless the mode is boost, PATCH cancelBoostPostData to the room first
and abort (WiserRESTException, or the hook's HTTPError) when it does not
return 200; then PATCH the mode-specific body and check it the same way.
Exception message texts follow the source with the formatted response text
interpolated. -/
def sendModePatches (env : Env) (s : HubState) (t : Trace) (roomId : ℤ)
    (mode : String) (patchData : PatchBody) : StepRes Unit :=
  let url := "domain/Room/" ++ toString roomId
  let step1 : StepRes Unit :=
    if pyLower mode ≠ "boost" then
      match httpPatch env s t url cancelBoostPostData with
      | (.error e, s1, t1) => (.error e, s1, t1)
      | (.ok r, s1, t1) =>
        if r.status_code ≠ 200 then
          (.error (.wiserREST ("Error cancelling boost " ++ mode ++ " ")), s1, t1)
        else (.ok (), s1, t1)
    else (.ok (), s, t)
  match step1 with
  | (.error e, s1, t1) => (.error e, s1, t1)
  | (.ok _, s1, t1) =>
    match httpPatch env s1 t1 url patchData with
    | (.error e, s2, t2) => (.error e, s2, t2)
    | (.ok r, s2, t2) =>
      if r.status_code ≠ 200 then
        (.error (.wiserREST ("Error setting mode to " ++ mode ++ ", error " ++ r.text ++ " ")),
         s2, t2)
      else (.ok (), s2, t2)

/-- wiserHub.setRoomMode: build patchData from the lower-cased mode (auto;
boost after validating the boost temperature, whose ValueError message is
abbreviated here; manual from the room's scheduled setpoint clamped up to
TEMP_MINIMUM, where a missing setpoint would make round() raise TypeError;
off as a manual override at TEMP_OFF; otherwise ValueError), then run the
cancel-then-apply tail. -/
def setRoomMode (fuel : Nat) (env : Env) (s : HubState) (t : Trace) (roomId : ℤ)
    (mode : String) (boost_temp : ℚ) (boost_temp_time : ℤ) : StepRes Unit :=
  if pyLower mode = "auto" then
    sendModePatches env s t roomId mode autoPatchBody
  else if pyLower mode = "boost" then
    if boost_temp < TEMP_MINIMUM ∨ boost_temp > TEMP_MAXIMUM then
      (.error (.valueError "Boost temperature out of range"), s, t)
    else
      sendModePatches env s t roomId mode
        (boostPatchBody boost_temp_time (toWiserTemp boost_temp))
  else if pyLower mode = "manual" then
    match getRoom fuel env s t roomId with
    | (.error e, s1, t1) => (.error e, s1, t1)
    | (.ok room, s1, t1) =>
      match room.ScheduledSetPoint with
      | none => (.error .typeError, s1, t1)
      | some ssp =>
        let setTemp := fromWiserTemp ssp
        let setTemp := if setTemp ≥ TEMP_MINIMUM then setTemp else TEMP_MINIMUM
        sendModePatches env s1 t1 roomId mode (manualPatchBody (toWiserTemp setTemp))
  else if pyLower mode = "off" then
    sendModePatches env s t roomId mode (manualPatchBody (toWiserTemp TEMP_OFF))
  else
    (.error (.valueError "room mode must be auto, boost, off or manual"), s, t)

/- Concrete hub environments and instance states used by the closed
theorems below. -/

/-- Rooms of the device-index example: room 1 with room stat A, room 2 with
smart valves B and C, room 3 with no devices. -/
def roomOne : Room :=
  { id := some 1, Name := none, RoomStatId := some "A", SmartValveIds := none,
    ScheduledSetPoint := none }

def roomTwo : Room :=
  { id := some 2, Name := none, RoomStatId := none, SmartValveIds := some ["B", "C"],
    ScheduledSetPoint := none }

def roomThree : Room :=
  { id := some 3, Name := none, RoomStatId := none, SmartValveIds := none,
    ScheduledSetPoint := none }

def domainABC : DomainData :=
  { Room := some [roomOne, roomTwo, roomThree], HeatingChannel := none,
    SmartPlug := none, Schedule := none }

/-- A hub whose domain document holds the three example rooms. -/
def envABC : Env :=
  { domainDoc := some domainABC, networkDoc := none, scheduleDoc := some ⟨[]⟩,
    patchStatus := fun _ => 200, patchText := fun _ => "" }

/-- An instance whose device index still holds an entry Z from an earlier
refresh; schedule and network data are cached. -/
def staleState : HubState :=
  { wiserHubData := none, wiserNetworkData := some ⟨[]⟩,
    wiserScheduleData := some ⟨[]⟩,
    device2roomMap := [("Z", { roomId := some 9, roomName := some "Old" })] }

/-- The same instance with an empty device index. -/
def freshState : HubState := { staleState with device2roomMap := [] }

/-- A hub whose domain/ endpoint returns JSON null. -/
def envNullDomain : Env :=
  { domainDoc := none, networkDoc := none, scheduleDoc := some ⟨[]⟩,
    patchStatus := fun _ => 200, patchText := fun _ => "" }

/-- A freshly constructed instance: every cache empty. -/
def hubStateEmpty : HubState :=
  { wiserHubData := none, wiserNetworkData := none, wiserScheduleData := none,
    device2roomMap := [] }

def channelOff : HeatingChannel := { HeatingRelayState := some "Off" }

def domainHC : DomainData :=
  { Room := some [], HeatingChannel := some [channelOff], SmartPlug := none,
    Schedule := none }

/-- A hub whose domain document holds one heating channel reporting Off. -/
def envHC : Env :=
  { domainDoc := some domainHC, networkDoc := some ⟨[]⟩, scheduleDoc := some ⟨[]⟩,
    patchStatus := fun _ => 200, patchText := fun _ => "" }

/-- An instance with schedule and network cached but no domain data. -/
def emptyDomainCacheState : HubState :=
  { wiserHubData := none, wiserNetworkData := some ⟨[]⟩,
    wiserScheduleData := some ⟨[]⟩, device2roomMap := [] }

def channelOn : HeatingChannel := { HeatingRelayState := some "On" }

/-- A domain document with two heating channels, one Off and one On. -/
def domainTwoChannels : DomainData :=
  { Room := some [], HeatingChannel := some [channelOff, channelOn],
    SmartPlug := none, Schedule := none }

/-- An instance whose cached domain document is domainTwoChannels. -/
def populatedHCState : HubState :=
  { wiserHubData := some domainTwoChannels,
    wiserNetworkData := none, wiserScheduleData := none, device2roomMap := [] }

/-- A hub that answers every PATCH with 200 (its GET documents are unused by
the runs it appears in). -/
def envPatchOk : Env :=
  { domainDoc := none, networkDoc := none, scheduleDoc := none,
    patchStatus := fun _ => 200, patchText := fun _ => "" }

/-- A room whose scheduled setpoint is 30 hub units, i.e. 3.0 degrees. -/
def roomManual : Room :=
  { id := some 1, Name := some "Lounge", RoomStatId := none, SmartValveIds := none,
    ScheduledSetPoint := some 30 }

def domainManual : DomainData :=
  { Room := some [roomManual], HeatingChannel := none, SmartPlug := none, Schedule := none }

/-- An instance whose cached domain document holds just roomManual. -/
def stateManual : HubState :=
  { wiserHubData := some domainManual, wiserNetworkData := none,
    wiserScheduleData := none, device2roomMap := [] }

/-- A smart plug that is scheduled On while its output reads Off. -/
def plugSeven : SmartPlug :=
  { id := some 7, OutputState := some "Off", ScheduledState := some "On" }

def domainPlug : DomainData :=
  { Room := none, HeatingChannel := none, SmartPlug := some [plugSeven], Schedule := none }

/-- An instance whose cached domain document holds just plugSeven. -/
def statePlug : HubState :=
  { wiserHubData := some domainPlug, wiserNetworkData := none,
    wiserScheduleData := none, device2roomMap := [] }

/-- An instance with a populated device index holding only the key A. -/
def stateMapped : HubState :=
  { wiserHubData := some domainPlug, wiserNetworkData := none, wiserScheduleData := none,
    device2roomMap := [("A", { roomId := some 1, roomName := none })] }

/- Helper lemmas. -/

theorem pyRoundHalfEven_intCast (t : ℤ) : pyRoundHalfEven (t : ℚ) = t := by
  unfold pyRoundHalfEven
  rw [Int.floor_intCast]
  norm_num

theorem pyInt_intCast (t : ℤ) : pyInt (t : ℚ) = t := by
  unfold pyInt
  split
  · exact Int.floor_intCast t
  · exact Int.ceil_intCast t

theorem fromWiserTemp_eq (t : ℤ) : fromWiserTemp t = (t : ℚ) / 10 := by
  unfold fromWiserTemp pyRound1
  rw [div_mul_cancel₀ _ (by norm_num : (10 : ℚ) ≠ 0), pyRoundHalfEven_intCast]

theorem toWiser_fromWiser (t : ℤ) : toWiserTemp (fromWiserTemp t) = t := by
  rw [fromWiserTemp_eq]
  unfold toWiserTemp
  rw [div_mul_cancel₀ _ (by norm_num : (10 : ℚ) ≠ 0)]
  exact pyInt_intCast t

theorem checkTempRange_iff (q : ℚ) :
    checkTempRange q = true ↔ q = -20 ∨ (5 ≤ q ∧ q ≤ 30) := by
  unfold checkTempRange TEMP_OFF TEMP_MINIMUM TEMP_MAXIMUM
  by_cases hc : q ≠ -20 ∧ (q < 5 ∨ q > 30)
  · rw [if_pos hc]
    simp only [Bool.false_eq_true, false_iff]
    rcases hc with ⟨hne, hor⟩
    rintro (h | ⟨h1, h2⟩)
    · exact hne h
    · rcases hor with h3 | h3 <;> linarith
  · rw [if_neg hc]
    push_neg at hc
    simp only [true_iff]
    by_cases hq : q = -20
    · exact Or.inl hq
    · rcases hc hq with ⟨h1, h2⟩
      exact Or.inr ⟨h1, h2⟩

/-- Claim C4: hub-unit round trip and the temperature validator: converting
a hub-unit temperature to degrees and back is the identity, and
_checkTempRange accepts exactly the off sentinel -20 and the closed
interval from 5 to 30 degrees. -/
theorem temp_roundtrip_and_range (t : ℤ) (q : ℚ) :
    toWiserTemp (fromWiserTemp t) = t ∧
    (checkTempRange q = true ↔ q = -20 ∨ (5 ≤ q ∧ q ≤ 30)) :=
  ⟨toWiser_fromWiser t, checkTempRange_iff q⟩

/-- Claim C1: the request layer never raises the typed Wiser exceptions for
HTTP error statuses: because the session hook raised inside self._http.get
or .patch, the local resp is unbound in the except handler and Python raises
UnboundLocalError there, for 401 on GET, 404 and 405 on PATCH, and any other
4xx/5xx alike; only the timeout branch behaves as the spec says. -/
theorem requestLayer_unbound_resp :
    makeGetRequest (.resp 401 "Unauthorized") = .error (.unboundLocalError "resp") ∧
    makeGetRequest (.resp 503 "Service Unavailable") = .error (.unboundLocalError "resp") ∧
    makePatchRequest (.resp 404 "Not Found") = .error (.unboundLocalError "resp") ∧
    makePatchRequest (.resp 405 "Method Not Allowed") = .error (.unboundLocalError "resp") ∧
    makeGetRequest .timeout = .error .wiserHubTimeout ∧
    makeGetRequest .connError = .error .wiserHubTimeout :=
  ⟨rfl, rfl, rfl, rfl, rfl, rfl⟩

theorem getRoomsGo_nullDomain
    (check : HubState → Trace → StepRes Unit)
    (hcheck : ∀ s t, s.wiserHubData = none → (check s t).1 = .error .recursionError)
    (s : HubState) (t : Trace) (hs : s.wiserHubData = none) :
    (getRoomsGo check s t).1 = .error .recursionError := by
  have h1 := hcheck s t hs
  unfold getRoomsGo
  rcases hc : check s t with ⟨res, s', t'⟩
  rw [hc] at h1
  simp only at h1
  subst h1
  rfl

theorem getRoomsGo_nullDomain_res
    (check : HubState → Trace → StepRes Unit)
    (hcheck : ∀ s t, s.wiserHubData = none → (check s t).1 = .error .recursionError)
    (s : HubState) (t : Trace) (hs : s.wiserHubData = none)
    (res : Except PyExc (Option (List Room))) (s' : HubState) (t' : Trace)
    (heq : getRoomsGo check s t = (res, s', t')) : res = .error .recursionError := by
  have h := getRoomsGo_nullDomain check hcheck s t hs
  rw [heq] at h
  exact h

theorem refreshDataGo_nullDomain (env : Env) (hdom : env.domainDoc = none)
    (check : HubState → Trace → StepRes Unit)
    (hcheck : ∀ s t, s.wiserHubData = none → (check s t).1 = .error .recursionError)
    (s : HubState) (t : Trace) :
    (refreshDataGo check env s t).1 = .error .recursionError := by
  unfold refreshDataGo updateScheduleData updateNetworkData updateHubData
  rcases hsd : s.wiserScheduleData with _ | sch <;> simp only [hsd] <;>
    rcases hnd : s.wiserNetworkData with _ | nd <;> simp only [hnd] <;>
    split
  all_goals rename_i heq
  all_goals
    have hres := getRoomsGo_nullDomain_res check hcheck _ _ (by simp [hdom]) _ _ _ heq
  case _ => injection hres with h2; subst h2; rfl
  all_goals first
    | (injection hres with h2; subst h2; rfl)
    | simp at hres

theorem refreshDataGo_nullDomain_res (env : Env) (hdom : env.domainDoc = none)
    (check : HubState → Trace → StepRes Unit)
    (hcheck : ∀ s t, s.wiserHubData = none → (check s t).1 = .error .recursionError)
    (s : HubState) (t : Trace)
    (res : Except PyExc DomainData) (s' : HubState) (t' : Trace)
    (heq : refreshDataGo check env s t = (res, s', t')) : res = .error .recursionError := by
  have h := refreshDataGo_nullDomain env hdom check hcheck s t
  rw [heq] at h
  exact h

theorem checkHubData_nullDomain_aux (env : Env) (hdom : env.domainDoc = none) :
    ∀ fuel : Nat, ∀ (s : HubState) (t : Trace), s.wiserHubData = none →
      (checkHubData fuel env s t).1 = .error .recursionError := by
  intro fuel
  induction fuel with
  | zero => intro s t hs; rfl
  | succ n ih =>
    intro s t hs
    unfold checkHubData
    simp only [hs]
    split
    all_goals rename_i heq
    all_goals
      have hres := refreshDataGo_nullDomain_res env hdom _
        (fun s' t' hs' => ih s' t' hs') _ _ _ _ _ heq
    all_goals first
      | (injection hres with h2; subst h2; rfl)
      | simp at hres

/-- Claim C5: the guard's data-null error is unreachable.  With an empty
domain cache and a hub whose domain/ endpoint returns JSON null (the only
way the cache can still be empty after a refresh attempt), checkHubData
never performs exactly one refresh and never raises WiserHubDataNull:
whatever recursion budget it is given, it re-enters
refreshData/getRooms/checkHubData until the interpreter's recursion limit,
i.e. it ends in RecursionError. -/
theorem checkHubData_null_recursion :
    ∀ fuel : Nat,
      (checkHubData fuel envNullDomain hubStateEmpty Trace.empty).1 =
        .error .recursionError :=
  fun fuel => checkHubData_nullDomain_aux envNullDomain rfl fuel hubStateEmpty Trace.empty rfl

/-- Claim C6 counterexample: the device-to-room index is not rebuilt from
scratch.  Starting from an index holding a leftover entry Z from an earlier
refresh, refreshing against rooms 1 (room stat A), 2 (smart valves B, C)
and 3 (no devices) leaves Z in the index alongside A, B and C, so the index
does not contain exactly the entries of the current rooms list. -/
theorem device2roomMap_keeps_stale_entry :
    (refreshData 5 envABC staleState Trace.empty).2.1.device2roomMap =
      [("Z", { roomId := some 9, roomName := some "Old" }),
       ("A", { roomId := some 1, roomName := none }),
       ("B", { roomId := some 2, roomName := none }),
       ("C", { roomId := some 2, roomName := none })] := by
  rfl

/-- Claim C6 amended: the index is updated in place from the current rooms
list rather than rebuilt: for the example rooms, starting from an empty
index the refresh produces exactly A to room 1, B to room 2, C to room 2
and emits exactly one warning (for room 3); starting from an index with a
leftover entry Z, that entry is preserved in front of A, B and C. -/
theorem device2roomMap_update_amended :
    ((refreshData 5 envABC freshState Trace.empty).2.1.device2roomMap =
      [("A", { roomId := some 1, roomName := none }),
       ("B", { roomId := some 2, roomName := none }),
       ("C", { roomId := some 2, roomName := none })]) ∧
    ((refreshData 5 envABC freshState Trace.empty).2.2.warnings =
      ["Room None doesn't contain any smart valves or thermostats."]) ∧
    ((refreshData 5 envABC staleState Trace.empty).2.1.device2roomMap =
      [("Z", { roomId := some 9, roomName := some "Old" }),
       ("A", { roomId := some 1, roomName := none }),
       ("B", { roomId := some 2, roomName := none }),
       ("C", { roomId := some 2, roomName := none })]) :=
  ⟨rfl, rfl, rfl⟩

/-- Claim C7 counterexample: getHeatingRelayStatus does force a cache
refresh.  Although its own guard call is commented out, it calls
getHeatingChannels, which runs checkHubData: with an empty domain cache the
call issues the domain/ GET of a refresh, populates the cache, and then
reports the aggregated relay state. -/
theorem getHeatingRelayStatus_forces_refresh :
    ((getHeatingRelayStatus 5 envHC emptyDomainCacheState Trace.empty).2.2.gets =
      ["domain/"]) ∧
    ((getHeatingRelayStatus 5 envHC emptyDomainCacheState Trace.empty).2.1.wiserHubData =
      some { Room := some [], HeatingChannel := some [channelOff], SmartPlug := none,
             Schedule := some [] }) ∧
    ((getHeatingRelayStatus 5 envHC emptyDomainCacheState Trace.empty).1 = .ok "Off") :=
  ⟨rfl, rfl, rfl⟩

theorem relayFold_on (l : List HeatingChannel) :
    l.foldl (fun st ch => if ch.HeatingRelayState = some "On" then "On" else st) "On" = "On" := by
  induction l with
  | nil => rfl
  | cons c l ih =>
    rw [List.foldl_cons]
    split <;> exact ih

theorem relayFold_eq_any (l : List HeatingChannel) :
    relayFold l =
      if l.any (fun c => c.HeatingRelayState == some "On") then "On" else "Off" := by
  unfold relayFold
  induction l with
  | nil => rfl
  | cons c l ih =>
    rw [List.foldl_cons, List.any_cons]
    by_cases h : c.HeatingRelayState = some "On"
    · simp only [h, if_pos rfl, beq_self_eq_true, Bool.true_or, if_true]
      exact relayFold_on l
    · simp only [if_neg h, ih]
      have hb : (c.HeatingRelayState == some "On") = false := by
        simp [h]
      rw [hb, Bool.false_or]

/-- Claim C7 amended: getHeatingRelayStatus aggregates across all heating
channels, returning On exactly when some channel reports On and Off
otherwise; it does not run the ensure-loaded guard in its own body, but its
getHeatingChannels call does, so on a populated domain cache the call makes
no requests and leaves the state unchanged (while on an empty cache it does
force a refresh, as the counterexample shows). -/
theorem getHeatingRelayStatus_amended (n : Nat) (env : Env) (s : HubState)
    (d : DomainData) (channels : List HeatingChannel)
    (hs : s.wiserHubData = some d) (hch : d.HeatingChannel = some channels) :
    ((getHeatingRelayStatus (n + 1) env s Trace.empty).1 =
      .ok (if channels.any (fun c => c.HeatingRelayState == some "On") then "On" else "Off")) ∧
    (getHeatingRelayStatus (n + 1) env s Trace.empty).2.2.gets = [] ∧
    (getHeatingRelayStatus (n + 1) env s Trace.empty).2.1 = s := by
  unfold getHeatingRelayStatus getHeatingChannels checkHubData
  simp only [hs, hch]
  refine ⟨?_, ?_, ?_⟩
  · rw [relayFold_eq_any]
  · trivial
  · trivial

theorem plugStateScan_find (pid : ℤ) (plugs : List SmartPlug) (plug : SmartPlug)
    (hfind : plugs.find? (fun p => p.id == some pid) = some plug) :
    plugStateScan pid plugs =
      match plug.OutputState with
      | none => .error (.wiserNotFound
          ("Unable to get State of smartPlug " ++ toString pid ++ ", is it offline?"))
      | some _ => .ok plug.ScheduledState := by
  induction plugs with
  | nil => simp [List.find?] at hfind
  | cons p rest ih =>
    by_cases h : p.id = some pid
    · rw [List.find?_cons] at hfind
      have hb : (p.id == some pid) = true := by simp [h]
      rw [hb] at hfind
      simp only [Option.some.injEq] at hfind
      subst hfind
      unfold plugStateScan
      rw [if_pos h]
    · rw [List.find?_cons] at hfind
      have hb : (p.id == some pid) = false := by simp [h]
      rw [hb] at hfind
      unfold plugStateScan
      rw [if_neg h]
      exact ih hfind

/-- Claim C9: for a smart plug present in the cached domain data (the first
plug in the list with the requested id), getSmartPlugState returns its
ScheduledState field when OutputState is non-null, and raises WiserNotFound
naming the plug id when OutputState is null. -/
theorem getSmartPlugState_returns_scheduled (n : Nat) (env : Env) (s : HubState)
    (d : DomainData) (plugs : List SmartPlug) (pid : ℤ) (plug : SmartPlug)
    (hs : s.wiserHubData = some d) (hplugs : d.SmartPlug = some plugs)
    (hfind : plugs.find? (fun p => p.id == some pid) = some plug) :
    (plug.OutputState ≠ none →
      (getSmartPlugState (n + 1) env s Trace.empty pid).1 = .ok plug.ScheduledState) ∧
    (plug.OutputState = none →
      (getSmartPlugState (n + 1) env s Trace.empty pid).1 =
        .error (.wiserNotFound
          ("Unable to get State of smartPlug " ++ toString pid ++ ", is it offline?"))) := by
  unfold getSmartPlugState getHubData checkHubData
  simp only [hs, hplugs]
  rw [plugStateScan_find pid plugs plug hfind]
  constructor
  · intro hout
    rcases ho : plug.OutputState with _ | v
    · exact absurd ho hout
    · simp only [ho]
  · intro hout
    simp only [hout]

/-- Claim C10: after the device-to-room index is populated, looking up a
device id absent from it makes getDeviceRoom raise KeyError (the bare dict
subscript), not return None and not raise a typed Wiser not-found error. -/
theorem getDeviceRoom_raises_keyError (n : Nat) (env : Env) (s : HubState)
    (d : DomainData) (deviceId : DeviceId)
    (hs : s.wiserHubData = some d)
    (hmap : s.device2roomMap ≠ [])
    (habs : s.device2roomMap.lookup deviceId = none) :
    (getDeviceRoom (n + 1) env s Trace.empty deviceId).1 = .error (.keyError deviceId) := by
  unfold getDeviceRoom checkHubData
  simp only [hs]
  rcases hm : s.device2roomMap with _ | ⟨p, rest⟩
  · exact absurd hm hmap
  · rw [hm] at habs
    simp only [hm, habs]

/-- Claim C3: refreshData fetches schedule data exactly when the schedule
cache is unset and network data exactly when the network cache is unset,
re-fetches domain data unconditionally on every call, and afterwards the
domain document's Schedule slot equals the schedule cache's Heating value,
overwriting whatever Schedule previously held. -/
theorem refreshData_fetch_policy (n : Nat) (env : Env) (s : HubState)
    (d : DomainData) (sch : ScheduleData)
    (hdom : env.domainDoc = some d)
    (hsch : s.wiserScheduleData = some sch ∨
            (s.wiserScheduleData = none ∧ env.scheduleDoc = some sch)) :
    ((refreshData (n + 1) env s Trace.empty).2.2.gets =
       (if s.wiserScheduleData = none then ["schedules/"] else []) ++
       (if s.wiserNetworkData = none then ["network/"] else []) ++ ["domain/"]) ∧
    (refreshData (n + 1) env s Trace.empty).2.1.wiserHubData =
       some { d with Schedule := some sch.Heating } ∧
    (refreshData (n + 1) env s Trace.empty).2.1.wiserScheduleData = some sch ∧
    (refreshData (n + 1) env s Trace.empty).1 =
       .ok { d with Schedule := some sch.Heating } := by
  unfold refreshData refreshDataGo updateScheduleData updateNetworkData updateHubData
    getRoomsGo checkHubData mergeSchedule
  rcases hsch with hsch | ⟨hsch, hdoc⟩ <;>
    rcases hnet : s.wiserNetworkData with _ | nd <;>
    rcases hr : d.Room with _ | rooms <;>
    simp_all [Trace.empty]

theorem autoPatchBody_ne_cancel : autoPatchBody ≠ cancelBoostPostData := by decide

theorem manualPatchBody_ne_cancel (sp : ℤ) : manualPatchBody sp ≠ cancelBoostPostData := by
  intro h
  have h2 : (2 : Nat) = 1 := congrArg List.length h
  exact absurd h2 (by decide)

theorem boostPatchBody_ne_cancel (dm sp : ℤ) : boostPatchBody dm sp ≠ cancelBoostPostData := by
  intro h
  have h2 : some ("Type", PLeaf.s "Manual") = some ("Type", PLeaf.s "None") :=
    congrArg (fun l : PatchBody =>
      match l with
      | (_, PVal.o f) :: _ => f.head?
      | _ => none) h
  exact absurd h2 (by decide)

theorem toWiser_clamp (ssp : ℤ) :
    toWiserTemp (if fromWiserTemp ssp ≥ TEMP_MINIMUM then fromWiserTemp ssp else TEMP_MINIMUM) =
      if ssp < 50 then 50 else ssp := by
  rw [fromWiserTemp_eq]
  by_cases h : (50 : ℤ) ≤ ssp
  · have hq : ((ssp : ℚ) / 10 ≥ TEMP_MINIMUM) := by
      unfold TEMP_MINIMUM
      rw [ge_iff_le, le_div_iff₀ (by norm_num : (0 : ℚ) < 10)]
      have h5 : ((50 : ℤ) : ℚ) ≤ (ssp : ℚ) := by exact_mod_cast h
      push_cast at h5
      linarith
    rw [if_pos hq, if_neg (by omega)]
    unfold toWiserTemp
    rw [div_mul_cancel₀ _ (by norm_num : (10 : ℚ) ≠ 0)]
    exact pyInt_intCast ssp
  · have hq : ¬((ssp : ℚ) / 10 ≥ TEMP_MINIMUM) := by
      unfold TEMP_MINIMUM
      rw [ge_iff_le, le_div_iff₀ (by norm_num : (0 : ℚ) < 10)]
      push_neg
      have h5 : (ssp : ℚ) < ((50 : ℤ) : ℚ) := by exact_mod_cast (by omega : ssp < (50 : ℤ))
      push_cast at h5
      linarith
    rw [if_neg hq, if_pos (by omega)]
    unfold toWiserTemp TEMP_MINIMUM pyInt
    norm_num

theorem sendModePatches_trace (env : Env) (s : HubState) (roomId : ℤ)
    (mode : String) (body : PatchBody) (hmode : pyLower mode ≠ "boost") :
    (env.patchStatus 0 = 200 →
      (sendModePatches env s Trace.empty roomId mode body).2.2.patches =
        [("domain/Room/" ++ toString roomId, cancelBoostPostData),
         ("domain/Room/" ++ toString roomId, body)]) ∧
    (env.patchStatus 0 ≠ 200 →
      (sendModePatches env s Trace.empty roomId mode body).2.2.patches =
        [("domain/Room/" ++ toString roomId, cancelBoostPostData)] ∧
      ∃ e, (sendModePatches env s Trace.empty roomId mode body).1 = .error e) := by
  unfold sendModePatches httpPatch raiseForStatus
  dsimp only
  rw [if_pos hmode]
  by_cases h0 : env.patchStatus 0 = 200
  · refine ⟨fun _ => ?_, fun hne => absurd h0 hne⟩
    simp only [Trace.empty, List.length_nil, h0, List.nil_append]
    norm_num
    by_cases h1 : 400 ≤ env.patchStatus 1 ∧ env.patchStatus 1 < 600
    · simp [h1]
    · simp only [h1, if_neg, ite_false]
      by_cases h2 : env.patchStatus 1 = 200 <;> simp [h2]
  · refine ⟨fun h200 => absurd h200 h0, fun _ => ?_⟩
    simp only [Trace.empty, List.length_nil, List.nil_append]
    by_cases hc : 400 ≤ env.patchStatus 0 ∧ env.patchStatus 0 < 600
    · simp [hc]
    · simp [hc, h0]

theorem sendModePatches_boost_trace (env : Env) (s : HubState) (roomId : ℤ)
    (mode : String) (body : PatchBody) (hmode : pyLower mode = "boost") :
    (sendModePatches env s Trace.empty roomId mode body).2.2.patches =
      [("domain/Room/" ++ toString roomId, body)] := by
  unfold sendModePatches httpPatch raiseForStatus
  dsimp only
  rw [if_neg (by simp [hmode])]
  simp only [Trace.empty, List.length_nil, List.nil_append]
  by_cases hc : 400 ≤ env.patchStatus 0 ∧ env.patchStatus 0 < 600
  · simp [hc]
  · by_cases h2 : env.patchStatus 0 = 200 <;> simp [hc, h2]

/-- Claim C8: setRoomMode with mode manual reads the room's scheduled
setpoint and sends, after the cancel-boost patch, a manual override whose
SetPoint is the scheduled value clamped up to the minimum: 50 hub units
(5.0 degrees) when the scheduled setpoint is below 50, the scheduled value
unchanged otherwise. -/
theorem setRoomMode_manual_clamps (n : Nat) (env : Env) (roomId ssp : ℤ)
    (room : Room) (d : DomainData) (s : HubState)
    (hs : s.wiserHubData = some d) (hrooms : d.Room = some [room])
    (hid : room.id = some roomId) (hssp : room.ScheduledSetPoint = some ssp)
    (hcancel : env.patchStatus 0 = 200) :
    (setRoomMode (n + 1) env s Trace.empty roomId "manual" 20 30).2.2.patches =
      [("domain/Room/" ++ toString roomId, cancelBoostPostData),
       ("domain/Room/" ++ toString roomId,
        manualPatchBody (if ssp < 50 then 50 else ssp))] := by
  unfold setRoomMode getRoom checkHubData roomScan
  rw [if_neg (by decide : ¬(pyLower "manual" = "auto")),
      if_neg (by decide : ¬(pyLower "manual" = "boost")),
      if_pos (by decide : pyLower "manual" = "manual")]
  simp only [hs, hrooms, hid, hssp, eq_self_iff_true, ite_true]
  rw [toWiser_clamp]
  exact (sendModePatches_trace env s roomId "manual" _ (by decide)).1 hcancel

/-- Claim C2: setRoomMode with mode boost (any letter case) never sends the
cancel-boost body; with mode auto, manual or off it sends the cancel-boost
patch to the room first and, when the cancel returns 200, exactly one
mode-specific patch after it; when the cancel does not return 200, no
further patch is sent and the call surfaces an error. -/
theorem setRoomMode_cancel_sequence (n : Nat) (env : Env) (roomId ssp : ℤ)
    (mode : String) (boost_temp : ℚ) (boost_temp_time : ℤ)
    (room : Room) (d : DomainData) (s : HubState)
    (hs : s.wiserHubData = some d)
    (hrooms : d.Room = some [room])
    (hid : room.id = some roomId)
    (hssp : room.ScheduledSetPoint = some ssp) :
    (pyLower mode = "boost" →
      ∀ p ∈ (setRoomMode (n + 1) env s Trace.empty roomId mode boost_temp boost_temp_time).2.2.patches,
        p.2 ≠ cancelBoostPostData) ∧
    ((pyLower mode = "auto" ∨ pyLower mode = "manual" ∨ pyLower mode = "off") →
      (env.patchStatus 0 = 200 →
        ∃ body, body ≠ cancelBoostPostData ∧
          (setRoomMode (n + 1) env s Trace.empty roomId mode boost_temp boost_temp_time).2.2.patches =
            [("domain/Room/" ++ toString roomId, cancelBoostPostData),
             ("domain/Room/" ++ toString roomId, body)]) ∧
      (env.patchStatus 0 ≠ 200 →
        (setRoomMode (n + 1) env s Trace.empty roomId mode boost_temp boost_temp_time).2.2.patches =
          [("domain/Room/" ++ toString roomId, cancelBoostPostData)] ∧
        ∃ e, (setRoomMode (n + 1) env s Trace.empty roomId mode boost_temp boost_temp_time).1 =
          .error e)) := by
  constructor
  · intro hb
    have hred : setRoomMode (n + 1) env s Trace.empty roomId mode boost_temp boost_temp_time =
        if boost_temp < TEMP_MINIMUM ∨ boost_temp > TEMP_MAXIMUM then
          (.error (.valueError "Boost temperature out of range"), s, Trace.empty)
        else
          sendModePatches env s Trace.empty roomId mode
            (boostPatchBody boost_temp_time (toWiserTemp boost_temp)) := by
      unfold setRoomMode
      rw [hb]
      rw [if_neg (by decide : ¬(("boost" : String) = "auto")),
          if_pos (rfl : ("boost" : String) = "boost")]
    rw [hred]
    by_cases hrange : boost_temp < TEMP_MINIMUM ∨ boost_temp > TEMP_MAXIMUM
    · rw [if_pos hrange]
      intro p hp
      simp [Trace.empty] at hp
    · rw [if_neg hrange]
      rw [sendModePatches_boost_trace env s roomId mode _ hb]
      intro p hp
      simp only [List.mem_singleton] at hp
      subst hp
      exact boostPatchBody_ne_cancel boost_temp_time (toWiserTemp boost_temp)
  · rintro (hm | hm | hm)
    · have hred : setRoomMode (n + 1) env s Trace.empty roomId mode boost_temp boost_temp_time =
          sendModePatches env s Trace.empty roomId mode autoPatchBody := by
        unfold setRoomMode
        rw [hm, if_pos (rfl : ("auto" : String) = "auto")]
      have hnb : pyLower mode ≠ "boost" := by rw [hm]; decide
      have hlem := sendModePatches_trace env s roomId mode autoPatchBody hnb
      rw [hred]
      exact ⟨fun h200 => ⟨autoPatchBody, autoPatchBody_ne_cancel, hlem.1 h200⟩,
             fun hne => hlem.2 hne⟩
    · have hred : setRoomMode (n + 1) env s Trace.empty roomId mode boost_temp boost_temp_time =
          sendModePatches env s Trace.empty roomId mode
            (manualPatchBody (if ssp < 50 then 50 else ssp)) := by
        unfold setRoomMode getRoom checkHubData roomScan
        rw [hm]
        rw [if_neg (by decide : ¬(("manual" : String) = "auto")),
            if_neg (by decide : ¬(("manual" : String) = "boost")),
            if_pos (rfl : ("manual" : String) = "manual")]
        simp only [hs, hrooms, hid, hssp, eq_self_iff_true, ite_true]
        rw [toWiser_clamp]
      have hnb : pyLower mode ≠ "boost" := by rw [hm]; decide
      have hlem := sendModePatches_trace env s roomId mode
        (manualPatchBody (if ssp < 50 then 50 else ssp)) hnb
      rw [hred]
      exact ⟨fun h200 => ⟨manualPatchBody (if ssp < 50 then 50 else ssp),
               manualPatchBody_ne_cancel _, hlem.1 h200⟩,
             fun hne => hlem.2 hne⟩
    · have hred : setRoomMode (n + 1) env s Trace.empty roomId mode boost_temp boost_temp_time =
          sendModePatches env s Trace.empty roomId mode
            (manualPatchBody (toWiserTemp TEMP_OFF)) := by
        unfold setRoomMode
        rw [hm]
        rw [if_neg (by decide : ¬(("off" : String) = "auto")),
            if_neg (by decide : ¬(("off" : String) = "boost")),
            if_neg (by decide : ¬(("off" : String) = "manual")),
            if_pos (rfl : ("off" : String) = "off")]
      have hnb : pyLower mode ≠ "boost" := by rw [hm]; decide
      have hlem := sendModePatches_trace env s roomId mode
        (manualPatchBody (toWiserTemp TEMP_OFF)) hnb
      rw [hred]
      exact ⟨fun h200 => ⟨manualPatchBody (toWiserTemp TEMP_OFF),
               manualPatchBody_ne_cancel _, hlem.1 h200⟩,
             fun hne => hlem.2 hne⟩

/-- Witness for refreshData_fetch_policy: starting from an entirely empty
cache against the three-room hub, all three documents are fetched once, and
the domain document's Schedule slot holds the schedule's Heating value. -/
theorem refreshData_fetch_policy_witness :
    ((refreshData 1 envABC hubStateEmpty Trace.empty).2.2.gets =
      ["schedules/", "network/", "domain/"]) ∧
    ((refreshData 1 envABC hubStateEmpty Trace.empty).2.1.wiserHubData =
      some { Room := some [roomOne, roomTwo, roomThree], HeatingChannel := none,
             SmartPlug := none, Schedule := some [] }) ∧
    ((refreshData 1 envABC hubStateEmpty Trace.empty).2.1.wiserScheduleData = some ⟨[]⟩) ∧
    ((refreshData 1 envABC hubStateEmpty Trace.empty).1 =
      .ok { Room := some [roomOne, roomTwo, roomThree], HeatingChannel := none,
            SmartPlug := none, Schedule := some [] }) :=
  refreshData_fetch_policy 0 envABC hubStateEmpty domainABC ⟨[]⟩ rfl (Or.inr ⟨rfl, rfl⟩)

/-- Witness for getHeatingRelayStatus_amended: on a populated cache with
channels Off and On the call returns On, makes no requests and leaves the
state unchanged. -/
theorem getHeatingRelayStatus_amended_witness :
    ((getHeatingRelayStatus 1 envHC populatedHCState Trace.empty).1 = .ok "On") ∧
    (getHeatingRelayStatus 1 envHC populatedHCState Trace.empty).2.2.gets = [] ∧
    (getHeatingRelayStatus 1 envHC populatedHCState Trace.empty).2.1 = populatedHCState :=
  getHeatingRelayStatus_amended 0 envHC populatedHCState domainTwoChannels
    [channelOff, channelOn] rfl rfl

/-- Witness for setRoomMode_cancel_sequence: setting room 1 of stateManual
to mode OFF against a hub that accepts the cancel sends the cancel-boost
patch first and then one non-cancel mode patch. -/
theorem setRoomMode_cancel_sequence_witness :
    ∃ body, body ≠ cancelBoostPostData ∧
      (setRoomMode 1 envPatchOk stateManual Trace.empty 1 "OFF" 20 30).2.2.patches =
        [("domain/Room/" ++ toString (1 : ℤ), cancelBoostPostData),
         ("domain/Room/" ++ toString (1 : ℤ), body)] :=
  ((setRoomMode_cancel_sequence 0 envPatchOk 1 30 "OFF" 20 30 roomManual domainManual
      stateManual rfl rfl rfl rfl).2 (Or.inr (Or.inr (by decide)))).1 rfl

/-- Witness for setRoomMode_manual_clamps: with the scheduled setpoint at
30 hub units (3.0 degrees), the manual override is clamped to 50 hub units
(5.0 degrees). -/
theorem setRoomMode_manual_clamps_witness :
    (setRoomMode 1 envPatchOk stateManual Trace.empty 1 "manual" 20 30).2.2.patches =
      [("domain/Room/" ++ toString (1 : ℤ), cancelBoostPostData),
       ("domain/Room/" ++ toString (1 : ℤ), manualPatchBody 50)] :=
  setRoomMode_manual_clamps 0 envPatchOk 1 30 roomManual domainManual stateManual
    rfl rfl rfl rfl rfl

/-- Witness for getSmartPlugState_returns_scheduled: plug 7 is scheduled On
with output Off, and the call reports On, the scheduled state. -/
theorem getSmartPlugState_returns_scheduled_witness :
    (getSmartPlugState 1 envPatchOk statePlug Trace.empty 7).1 = .ok (some "On") :=
  (getSmartPlugState_returns_scheduled 0 envPatchOk statePlug domainPlug [plugSeven] 7
      plugSeven rfl rfl rfl).1 (by decide)

/-- Witness for getDeviceRoom_raises_keyError: with the index populated by
key A only, asking for device Q raises KeyError Q. -/
theorem getDeviceRoom_raises_keyError_witness :
    (getDeviceRoom 1 envPatchOk stateMapped Trace.empty "Q").1 = .error (.keyError "Q") :=
  getDeviceRoom_raises_keyError 0 envPatchOk stateMapped domainPlug "Q" rfl (by decide) rfl
